import Mathlib

/-!
Verification of the nullable-timestamp wrappers of this repository
(packages `null` and `zero`, file `timestamp.go`).

Byte slices (`[]byte`) are embedded as `List Char`; `time.Time` is embedded
as an instant (nanoseconds since the Unix epoch, unbounded `Int`) together
with a location label, which suffices for every operation this code
performs on times (`UnixNano`, `UnixMilli`, `Add`, `IsZero`, `Equal`, `==`).
64-bit overflow in Go arithmetic is made explicit with `wrap64`.
-/

/-- Two to the sixty-third power, the magnitude of the int64 range. -/
def pow63 : Int := 9223372036854775808

/-- Two to the sixty-fourth power. -/
def pow64 : Int := 18446744073709551616

/-- Smallest value of Go's int64. -/
def int64MinValue : Int := -9223372036854775808

/-- Largest value of Go's int64. -/
def int64MaxValue : Int := 9223372036854775807

/-- Reduction of an unbounded integer to Go int64 two's-complement
wrap-around semantics. -/
def wrap64 (n : Int) : Int := (n + pow63) % pow64 - pow63

/-- The decimal digit character for `d` (`d` is always below ten at use
sites; larger arguments clamp to `9`). -/
def digitChar (d : Nat) : Char :=
  match d with
  | 0 => '0' | 1 => '1' | 2 => '2' | 3 => '3' | 4 => '4'
  | 5 => '5' | 6 => '6' | 7 => '7' | 8 => '8' | _ => '9'

/-- Fuelled digit accumulator: peels least-significant digits of `n` onto
`acc`. The fuel bounds the digit count; every number this development
renders fits in 24 digits. -/
def natDecCharsAux : Nat → Nat → List Char → List Char
  | 0, _, acc => acc
  | fuel + 1, n, acc =>
    if n < 10 then digitChar n :: acc
    else natDecCharsAux fuel (n / 10) (digitChar (n % 10) :: acc)

/-- Decimal digit characters of a natural number, most significant first
(as produced by `strconv.FormatInt` / `encoding/json` for numbers);
faithful for `n < 10^24`, far beyond the int64 range this code meets. -/
def natDecChars (n : Nat) : List Char := natDecCharsAux 24 n []

/-- Decimal rendering of an integer, as Go produces for int64 values. -/
def intToDecimalChars (n : Int) : List Char :=
  if n < 0 then '-' :: natDecChars n.natAbs else natDecChars n.natAbs

/-- Numeric value of a decimal digit character. -/
def charDigitVal (c : Char) : Nat := c.toNat - 48

/-- Value of a most-significant-first digit string. -/
def digitsVal (cs : List Char) : Nat :=
  cs.foldl (fun a c => 10 * a + charDigitVal c) 0

/-- Parse a nonempty all-digit character list as a natural number. -/
def parseNatLit (cs : List Char) : Option Nat :=
  if cs ≠ [] ∧ cs.all Char.isDigit then some (digitsVal cs) else none

/-- Parse an optionally `-`-signed decimal integer literal
(the form accepted by `strconv.ParseInt` on the inputs this code meets). -/
def parseIntLit (cs : List Char) : Option Int :=
  match cs with
  | [] => none
  | c :: rest =>
    if c = '-' then (parseNatLit rest).map (fun n => -Int.ofNat n)
    else (parseNatLit (c :: rest)).map (fun n => Int.ofNat n)

/-- Modelled from the spec: the byte slice constant `nullBytes`
(`[]byte("null")`), declared elsewhere in the repository (its declaring
file is not under `src/`; `timestamp.go` line 69 compares against it). -/
def nullBytes : List Char := ['n', 'u', 'l', 'l']

/-- The JSON quoted empty string `""`, matched by the zero-family
timestamp decoder (`timestamp.go` line 217). -/
def quotedEmptyBytes : List Char := ['"', '"']

/-- Decode-error kinds surfaced by this code: malformed or wrong-kind
JSON, out-of-range numeric literal, unparseable text. -/
inductive GoError where
  | jsonError
  | rangeError
  | parseError
deriving DecidableEq

/-- Modelled from the spec: the null-family `Int64` wrapper record
(`value: int64, valid: bool`); its source file is not under `src/`
(only its tests and its callers in `timestamp.go` are). -/
structure Int64 where
  int64 : Int
  valid : Bool
deriving DecidableEq

/-- Modelled from the spec: `Int64From` — "`from(value)` → always valid". -/
def Int64From (v : Int) : Int64 := { int64 := v, valid := true }

/-- JSON integer literal accepted by the null-family int decoder: a bare
decimal literal, or (per the spec, "quoted numeric string for ints") a
quoted decimal literal. -/
def jsonIntLit (data : List Char) : Option Int :=
  if data.head? = some '"' ∧ data.getLast? = some '"' ∧ 2 ≤ data.length
  then parseIntLit (List.dropLast (data.drop 1))
  else parseIntLit data

/-- Modelled from the spec: `Int64.UnmarshalJSON` — "accepts the literal
null token → valid=false, value=zero"; a decimal literal (bare or quoted)
in range → valid=true; out-of-range → overflow error; anything else →
syntax or type error, wrapper left invalid. The `Int64` source file is
not under `src/`. -/
def int64UnmarshalJSON (i : Int64) (data : List Char) : Int64 × Option GoError :=
  if data = nullBytes then ({ int64 := 0, valid := false }, none)
  else
    match jsonIntLit data with
    | some v =>
      if int64MinValue ≤ v ∧ v ≤ int64MaxValue then ({ int64 := v, valid := true }, none)
      else (i, some GoError.rangeError)
    | none => (i, some GoError.jsonError)

/-- Modelled from the spec: `Int64.UnmarshalText` — "empty input →
valid=false; literal \"null\" → valid=false (back-compat shim); otherwise
parse as the primitive; parse failure → error, wrapper left invalid".
The `Int64` source file is not under `src/`. -/
def int64UnmarshalText (i : Int64) (text : List Char) : Int64 × Option GoError :=
  if text = [] ∨ text = nullBytes then ({ i with valid := false }, none)
  else
    match parseIntLit text with
    | some v =>
      if int64MinValue ≤ v ∧ v ≤ int64MaxValue then ({ int64 := v, valid := true }, none)
      else ({ i with valid := false }, some GoError.rangeError)
    | none => ({ i with valid := false }, some GoError.parseError)

/-- Modelled from the spec: `Int64.MarshalText` — "valid=false → empty
byte sequence; valid=true → textual form of value". The `Int64` source
file is not under `src/`. -/
def int64MarshalText (i : Int64) : List Char :=
  if i.valid then intToDecimalChars i.int64 else []

/-- Shallow embedding of Go's `time.Time` as used by `timestamp.go`:
an instant (nanoseconds since the Unix epoch) and a location label.
Monotonic-clock readings never arise on the code paths verified here. -/
structure GoTime where
  unixNano : Int
  loc : String
deriving DecidableEq

/-- The instant of Go's zero `time.Time` (January 1, year 1, 00:00:00 UTC),
in nanoseconds since the Unix epoch: -62135596800 seconds. -/
def zeroTimeUnixNano : Int := -62135596800000000000

/-- Go's zero value `time.Time{}` (its nil location reads as UTC). -/
def zeroGoTime : GoTime := { unixNano := zeroTimeUnixNano, loc := "UTC" }

/-- `time.Time.IsZero`: whether the instant is January 1, year 1, UTC. -/
def GoTime.IsZero (t : GoTime) : Bool := t.unixNano == zeroTimeUnixNano

/-- `time.Time.Equal`: instant comparison, location-insensitive. -/
def GoTime.Equal (a b : GoTime) : Bool := a.unixNano == b.unixNano

/-- `time.Time.UnixNano`: nanoseconds since the epoch as a Go int64
(undefined — in practice wrapped — outside the int64 range). -/
def GoTime.UnixNano (t : GoTime) : Int := wrap64 t.unixNano

/-- `time.Time.UnixMilli`: `unixSec()*1e3 + nsec()/1e6` in Go, which over
unbounded integers is the floor division of the nanosecond instant by
one million, wrapped to int64. -/
def GoTime.UnixMilli (t : GoTime) : Int := wrap64 (Int.fdiv t.unixNano 1000000)

/-- `time.Time.Add`: shifts the instant by a (wrapped int64) nanosecond
duration, keeping the location. -/
def GoTime.Add (t : GoTime) (d : Int) : GoTime := { t with unixNano := t.unixNano + d }

/-- `time.UnixMilli(0).UTC()`: the Unix epoch instant in location UTC,
the base point of both families' decoders. -/
def epochUTC : GoTime := { unixNano := 0, loc := "UTC" }

namespace null

/-- Package `null`: `Timestamp` is a nullable `time.Time`
(`timestamp.go` lines 14-16, embedding `sql.NullTime`'s
`Time`/`Valid` fields). -/
structure Timestamp where
  Time : GoTime
  Valid : Bool
deriving DecidableEq

/-- `null.NewTimestamp` (`timestamp.go` lines 27-34). -/
def NewTimestamp (t : GoTime) (valid : Bool) : Timestamp :=
  { Time := t, Valid := valid }

/-- `null.TimestampFrom`: always valid (`timestamp.go` lines 37-39). -/
def TimestampFrom (t : GoTime) : Timestamp := NewTimestamp t true

/-- `null.Timestamp.ValueOrZero` (`timestamp.go` lines 49-54). -/
def Timestamp.ValueOrZero (t : Timestamp) : GoTime :=
  if t.Valid then t.Time else zeroGoTime

/-- `null.Timestamp.MarshalJSON` (`timestamp.go` lines 59-64): `null` when
invalid, else `json.Marshal(t.Time.UnixNano() / int64(time.Millisecond))`
(Go `/` on int64 truncates toward zero). Its Go error result is always nil. -/
def Timestamp.MarshalJSON (t : Timestamp) : List Char :=
  if t.Valid then intToDecimalChars (Int.tdiv t.Time.UnixNano 1000000)
  else nullBytes

/-- `null.Timestamp.UnmarshalJSON` (`timestamp.go` lines 68-82): on the
null token only `Valid` is cleared; otherwise a fresh `Int64` decodes the
data, an error returns with the receiver untouched, and on success
`Time = time.UnixMilli(0).UTC().Add(value*1e6 ns)` (int64 product wrapped),
`Valid = true`. The returned pair is (receiver after the call, error). -/
def Timestamp.UnmarshalJSON (t : Timestamp) (data : List Char) :
    Timestamp × Option GoError :=
  if data = nullBytes then ({ t with Valid := false }, none)
  else
    match int64UnmarshalJSON { int64 := 0, valid := false } data with
    | (_, some e) => (t, some e)
    | (v, none) =>
      ({ Time := epochUTC.Add (wrap64 (v.int64 * 1000000)), Valid := true }, none)

/-- `null.Timestamp.MarshalText` (`timestamp.go` lines 86-92): empty when
invalid, else `Int64From(t.Time.UnixMilli()).MarshalText()`. Its Go error
result is always nil. -/
def Timestamp.MarshalText (t : Timestamp) : List Char :=
  if t.Valid then int64MarshalText (Int64From t.Time.UnixMilli)
  else []

/-- `null.Timestamp.UnmarshalText` (`timestamp.go` lines 97-110): decodes
through `Int64From(0).UnmarshalText`; an error returns with the receiver
untouched; an invalid result (empty or "null" input) returns success with
the receiver untouched; otherwise the time is set as in `UnmarshalJSON`. -/
def Timestamp.UnmarshalText (t : Timestamp) (text : List Char) :
    Timestamp × Option GoError :=
  match int64UnmarshalText (Int64From 0) text with
  | (_, some e) => (t, some e)
  | (n, none) =>
    if n.valid then
      ({ Time := epochUTC.Add (wrap64 (n.int64 * 1000000)), Valid := true }, none)
    else (t, none)

/-- `null.Timestamp.IsZero` (`timestamp.go` lines 128-130). -/
def Timestamp.IsZero (t : Timestamp) : Bool := !t.Valid

/-- `null.Timestamp.Equal` (`timestamp.go` lines 135-137): same validity
and, when valid, instant-equal times (location-insensitive). -/
def Timestamp.Equal (t other : Timestamp) : Bool :=
  t.Valid == other.Valid && (!t.Valid || t.Time.Equal other.Time)

/-- `null.Timestamp.ExactEqual` (`timestamp.go` lines 142-144): same
validity and, when valid, representationally equal times (Go `==`,
location-sensitive). -/
def Timestamp.ExactEqual (t other : Timestamp) : Bool :=
  t.Valid == other.Valid && (!t.Valid || t.Time == other.Time)

end null

namespace zero

/-- Package `zero`: `Timestamp` (`timestamp.go` lines 158-160, embedding
`sql.NullTime`'s `Time`/`Valid` fields). -/
structure Timestamp where
  Time : GoTime
  Valid : Bool
deriving DecidableEq

/-- `zero.NewTimestamp` (`timestamp.go` lines 171-178). -/
def NewTimestamp (t : GoTime) (valid : Bool) : Timestamp :=
  { Time := t, Valid := valid }

/-- `zero.TimestampFrom`: null if `t` is the zero value
(`timestamp.go` lines 182-184). -/
def TimestampFrom (t : GoTime) : Timestamp := NewTimestamp t (!t.IsZero)

/-- `zero.Timestamp.ValueOrZero` (`timestamp.go` lines 196-201). -/
def Timestamp.ValueOrZero (t : Timestamp) : GoTime :=
  if t.Valid then t.Time else zeroGoTime

/-- `zero.Timestamp.MarshalJSON` (`timestamp.go` lines 206-211): the
bytes `0` when invalid, else as in the null family. Its Go error result
is always nil. -/
def Timestamp.MarshalJSON (t : Timestamp) : List Char :=
  if t.Valid then intToDecimalChars (Int.tdiv t.Time.UnixNano 1000000)
  else ['0']

/-- `zero.Timestamp.UnmarshalJSON` (`timestamp.go` lines 215-230): on
`null` or `""` only `Valid` is cleared; otherwise as in the null family
except `Valid = !t.Time.IsZero()` on the freshly assigned time. -/
def Timestamp.UnmarshalJSON (t : Timestamp) (data : List Char) :
    Timestamp × Option GoError :=
  if data = nullBytes ∨ data = quotedEmptyBytes then ({ t with Valid := false }, none)
  else
    match int64UnmarshalJSON { int64 := 0, valid := false } data with
    | (_, some e) => (t, some e)
    | (v, none) =>
      let tm := epochUTC.Add (wrap64 (v.int64 * 1000000))
      ({ Time := tm, Valid := !tm.IsZero }, none)

/-- `zero.Timestamp.MarshalText` (`timestamp.go` lines 234-240): the
bytes `0` when invalid, else `Int64From(t.Time.UnixMilli()).MarshalText()`.
Its Go error result is always nil. -/
def Timestamp.MarshalText (t : Timestamp) : List Char :=
  if t.Valid then int64MarshalText (Int64From t.Time.UnixMilli)
  else ['0']

/-- `zero.Timestamp.UnmarshalText` (`timestamp.go` lines 245-258):
identical in code to the null family's text decoder. -/
def Timestamp.UnmarshalText (t : Timestamp) (text : List Char) :
    Timestamp × Option GoError :=
  match int64UnmarshalText (Int64From 0) text with
  | (_, some e) => (t, some e)
  | (n, none) =>
    if n.valid then
      ({ Time := epochUTC.Add (wrap64 (n.int64 * 1000000)), Valid := true }, none)
    else (t, none)

/-- `zero.Timestamp.IsZero` (`timestamp.go` lines 276-278). -/
def Timestamp.IsZero (t : Timestamp) : Bool := !t.Valid || t.Time.IsZero

/-- `zero.Timestamp.Equal` (`timestamp.go` lines 284-286): instant
comparison of the `ValueOrZero` results. -/
def Timestamp.Equal (t other : Timestamp) : Bool :=
  t.ValueOrZero.Equal other.ValueOrZero

/-- `zero.Timestamp.ExactEqual` (`timestamp.go` lines 291-293): Go `==`
on the `ValueOrZero` results. -/
def Timestamp.ExactEqual (t other : Timestamp) : Bool :=
  t.ValueOrZero == other.ValueOrZero

end zero

/-- A sample non-zero instant in UTC: 1356124881000 ms after the epoch,
the instant the repository's tests encode as `"1356124881000"`. -/
def sampleUTC : GoTime := { unixNano := 1356124881000000000, loc := "UTC" }

/-- The same instant as `sampleUTC` carried in a different location. -/
def sampleCET : GoTime := { unixNano := 1356124881000000000, loc := "CET" }

/-- An instant half a millisecond before the Unix epoch (sub-millisecond,
pre-epoch: the region where truncating and flooring division differ). -/
def preEpochTime : GoTime := { unixNano := -500000, loc := "UTC" }

/-! ## Arithmetic and decimal-rendering lemmas -/

theorem wrap64_eq_of_range (n : Int) (h1 : int64MinValue ≤ n) (h2 : n ≤ int64MaxValue) :
    wrap64 n = n := by
  unfold wrap64 pow63 pow64
  unfold int64MinValue at h1
  unfold int64MaxValue at h2
  omega

theorem digitChar_isDigit (d : Nat) : (digitChar d).isDigit = true := by
  unfold digitChar
  split <;> decide

theorem charDigitVal_digitChar (d : Nat) (h : d < 10) :
    charDigitVal (digitChar d) = d := by
  interval_cases d <;> decide

theorem natDecCharsAux_append (fuel n : Nat) (acc : List Char) :
    natDecCharsAux fuel n acc = natDecCharsAux fuel n [] ++ acc := by
  induction fuel generalizing n acc with
  | zero => simp [natDecCharsAux]
  | succ fuel ih =>
    simp only [natDecCharsAux]
    split
    · simp
    · rw [ih (n / 10) (digitChar (n % 10) :: acc), ih (n / 10) [digitChar (n % 10)]]
      simp

theorem natDecChars_allDigits (n : Nat) :
    (natDecChars n).all Char.isDigit = true := by
  unfold natDecChars
  generalize 24 = fuel
  induction fuel generalizing n with
  | zero => rfl
  | succ fuel ih =>
    simp only [natDecCharsAux]
    split
    · simp [digitChar_isDigit]
    · rw [natDecCharsAux_append]
      simp [List.all_append, ih, digitChar_isDigit]

theorem natDecCharsAux_succ_ne_nil (fuel n : Nat) :
    natDecCharsAux (fuel + 1) n [] ≠ [] := by
  simp only [natDecCharsAux]
  split
  · simp
  · rw [natDecCharsAux_append]
    simp

theorem natDecChars_ne_nil (n : Nat) : natDecChars n ≠ [] := by
  unfold natDecChars
  exact natDecCharsAux_succ_ne_nil 23 n

theorem digitsVal_append_single (l : List Char) (c : Char) :
    digitsVal (l ++ [c]) = 10 * digitsVal l + charDigitVal c := by
  simp [digitsVal, List.foldl_append]

theorem digitsVal_natDecCharsAux (fuel n : Nat) (h : n < 10 ^ fuel) :
    digitsVal (natDecCharsAux fuel n []) = n := by
  induction fuel generalizing n with
  | zero =>
    simp only [pow_zero] at h
    simp only [natDecCharsAux, digitsVal, List.foldl_nil]
    omega
  | succ fuel ih =>
    simp only [natDecCharsAux]
    split
    · rename_i hlt
      simp [digitsVal, charDigitVal_digitChar n hlt]
    · rw [natDecCharsAux_append, digitsVal_append_single,
        charDigitVal_digitChar (n % 10) (Nat.mod_lt _ (by omega)),
        ih (n / 10) (by rw [pow_succ] at h; omega)]
      omega

theorem parseNatLit_natDecChars (n : Nat) (h : n < 10 ^ 24) :
    parseNatLit (natDecChars n) = some n := by
  unfold parseNatLit
  rw [if_pos ⟨natDecChars_ne_nil n, natDecChars_allDigits n⟩]
  exact congrArg some (digitsVal_natDecCharsAux 24 n h)

theorem parseIntLit_intToDecimalChars (m : Int) (h : m.natAbs < 10 ^ 24) :
    parseIntLit (intToDecimalChars m) = some m := by
  unfold intToDecimalChars
  by_cases hm : m < 0
  · rw [if_pos hm]
    simp only [parseIntLit]
    rw [if_pos trivial, parseNatLit_natDecChars m.natAbs h]
    simp only [Option.map_some', Option.some.injEq, Int.ofNat_eq_natCast]
    omega
  · rw [if_neg hm]
    rcases hnd : natDecChars m.natAbs with _ | ⟨c, rest⟩
    · exact absurd hnd (natDecChars_ne_nil m.natAbs)
    · have hdig : (c :: rest).all Char.isDigit = true := by
        rw [← hnd]; exact natDecChars_allDigits m.natAbs
      have hc : c.isDigit = true := by
        simp only [List.all_cons, Bool.and_eq_true] at hdig
        exact hdig.1
      have hcne : ¬ c = '-' := by
        intro hceq
        rw [hceq] at hc
        exact absurd hc (by decide)
      simp only [parseIntLit]
      rw [if_neg hcne, ← hnd, parseNatLit_natDecChars m.natAbs h]
      simp only [Option.map_some', Option.some.injEq, Int.ofNat_eq_natCast]
      omega

theorem intToDecimalChars_ne_nullBytes (m : Int) :
    intToDecimalChars m ≠ nullBytes := by
  unfold intToDecimalChars nullBytes
  by_cases hm : m < 0
  · rw [if_pos hm]
    intro hcon
    exact absurd (List.head_eq_of_cons_eq hcon) (by decide)
  · rw [if_neg hm]
    intro hcon
    have hdig := natDecChars_allDigits m.natAbs
    rw [hcon] at hdig
    exact absurd hdig (by decide)

theorem intToDecimalChars_head_ne_quote (m : Int) :
    ¬ (intToDecimalChars m).head? = some '"' := by
  unfold intToDecimalChars
  by_cases hm : m < 0
  · rw [if_pos hm]
    simp
  · rw [if_neg hm]
    rcases hnd : natDecChars m.natAbs with _ | ⟨c, rest⟩
    · simp
    · have hdig : (c :: rest).all Char.isDigit = true := by
        rw [← hnd]; exact natDecChars_allDigits m.natAbs
      have hc : c.isDigit = true := by
        simp only [List.all_cons, Bool.and_eq_true] at hdig
        exact hdig.1
      simp only [List.head?_cons, Option.some.injEq]
      intro hceq
      rw [hceq] at hc
      exact absurd hc (by decide)

/-! ## Decode characterization lemmas -/

theorem natAbs_lt_pow24_of_int64_range (m : Int)
    (h1 : int64MinValue ≤ m) (h2 : m ≤ int64MaxValue) : m.natAbs < 10 ^ 24 := by
  unfold int64MinValue at h1
  unfold int64MaxValue at h2
  have hp : (10 : Nat) ^ 24 = 1000000000000000000000000 := by norm_num
  omega

theorem jsonIntLit_decimal (m : Int) (h : m.natAbs < 10 ^ 24) :
    jsonIntLit (intToDecimalChars m) = some m := by
  unfold jsonIntLit
  rw [if_neg (fun hcon => intToDecimalChars_head_ne_quote m hcon.1)]
  exact parseIntLit_intToDecimalChars m h

theorem int64UnmarshalJSON_decimal (i : Int64) (m : Int)
    (h1 : int64MinValue ≤ m) (h2 : m ≤ int64MaxValue) :
    int64UnmarshalJSON i (intToDecimalChars m) =
      ({ int64 := m, valid := true }, none) := by
  unfold int64UnmarshalJSON
  rw [if_neg (intToDecimalChars_ne_nullBytes m),
    jsonIntLit_decimal m (natAbs_lt_pow24_of_int64_range m h1 h2)]
  simp [h1, h2]

theorem null_unmarshalJSON_decimal (t : null.Timestamp) (m : Int)
    (h1 : int64MinValue ≤ m) (h2 : m ≤ int64MaxValue) :
    t.UnmarshalJSON (intToDecimalChars m) =
      ({ Time := epochUTC.Add (wrap64 (m * 1000000)), Valid := true }, none) := by
  unfold null.Timestamp.UnmarshalJSON
  rw [if_neg (intToDecimalChars_ne_nullBytes m), int64UnmarshalJSON_decimal _ m h1 h2]

/-! ## Error paths leave the receiver unchanged -/

theorem null_unmarshalJSON_error_unchanged (t : null.Timestamp) (data : List Char) :
    ((t.UnmarshalJSON data).2).isSome = true → (t.UnmarshalJSON data).1 = t := by
  unfold null.Timestamp.UnmarshalJSON
  split
  · simp
  · split
    · simp
    · simp

theorem null_unmarshalText_error_unchanged (t : null.Timestamp) (text : List Char) :
    ((t.UnmarshalText text).2).isSome = true → (t.UnmarshalText text).1 = t := by
  unfold null.Timestamp.UnmarshalText
  split
  · simp
  · split
    · simp
    · simp

theorem zero_unmarshalJSON_error_unchanged (t : zero.Timestamp) (data : List Char) :
    ((t.UnmarshalJSON data).2).isSome = true → (t.UnmarshalJSON data).1 = t := by
  unfold zero.Timestamp.UnmarshalJSON
  split
  · simp
  · split
    · simp
    · simp

theorem zero_unmarshalText_error_unchanged (t : zero.Timestamp) (text : List Char) :
    ((t.UnmarshalText text).2).isSome = true → (t.UnmarshalText text).1 = t := by
  unfold zero.Timestamp.UnmarshalText
  split
  · simp
  · split
    · simp
    · simp

/-! ## Successful decodes write only UTC times -/

theorem null_unmarshalJSON_loc (t : null.Timestamp) (data : List Char) :
    (t.UnmarshalJSON data).2 = none →
    (t.UnmarshalJSON data).1.Time = t.Time ∨ (t.UnmarshalJSON data).1.Time.loc = "UTC" := by
  unfold null.Timestamp.UnmarshalJSON
  split
  · intro _; left; rfl
  · split
    · simp
    · intro _; right; rfl

theorem null_unmarshalText_loc (t : null.Timestamp) (text : List Char) :
    (t.UnmarshalText text).2 = none →
    (t.UnmarshalText text).1.Time = t.Time ∨ (t.UnmarshalText text).1.Time.loc = "UTC" := by
  unfold null.Timestamp.UnmarshalText
  split
  · simp
  · split
    · intro _; right; rfl
    · intro _; left; rfl

theorem zero_unmarshalJSON_loc (t : zero.Timestamp) (data : List Char) :
    (t.UnmarshalJSON data).2 = none →
    (t.UnmarshalJSON data).1.Time = t.Time ∨ (t.UnmarshalJSON data).1.Time.loc = "UTC" := by
  unfold zero.Timestamp.UnmarshalJSON
  split
  · intro _; left; rfl
  · split
    · simp
    · intro _; right; rfl

theorem zero_unmarshalText_loc (t : zero.Timestamp) (text : List Char) :
    (t.UnmarshalText text).2 = none →
    (t.UnmarshalText text).1.Time = t.Time ∨ (t.UnmarshalText text).1.Time.loc = "UTC" := by
  unfold zero.Timestamp.UnmarshalText
  split
  · simp
  · split
    · intro _; right; rfl
    · intro _; left; rfl

/-! ## Claims -/

/-- Claim C1, counterexample: structured decode of the literal `0` into a
fresh zero-family `Timestamp` succeeds but leaves valid=true with the Unix
epoch instant — not, as claimed, valid=false with the zero time (the code
sets `Valid = !t.Time.IsZero()` and the epoch is not the zero time; the
repository's own test expects valid=true here). -/
theorem claim_C1_counterexample :
    ((zero.NewTimestamp zeroGoTime false).UnmarshalJSON ['0']).2 = none ∧
    ((zero.NewTimestamp zeroGoTime false).UnmarshalJSON ['0']).1.Valid = true ∧
    ((zero.NewTimestamp zeroGoTime false).UnmarshalJSON ['0']).1.Time ≠ zeroGoTime := by
  decide

/-- Claim C1, amended: for every zero-family `Timestamp` receiver,
structured decode of `null` or of the quoted empty string succeeds,
clears `Valid` and leaves the stored time untouched; structured decode of
the literal `0` succeeds and yields valid=true with the Unix epoch
instant in UTC (which is not the zero time). -/
theorem claim_C1_zero_decode_zero_forms (t : zero.Timestamp) :
    t.UnmarshalJSON nullBytes = ({ t with Valid := false }, none) ∧
    t.UnmarshalJSON quotedEmptyBytes = ({ t with Valid := false }, none) ∧
    t.UnmarshalJSON ['0'] =
      ({ Time := { unixNano := 0, loc := "UTC" }, Valid := true }, none) :=
  ⟨rfl, rfl, rfl⟩

/-- Claim C2, counterexample: a decode error on a valid, non-zero receiver
leaves it valid and non-zero — the error path returns before touching the
receiver, so it is not put into the invalid/zero state. -/
theorem claim_C2_counterexample :
    (((null.TimestampFrom sampleUTC).UnmarshalJSON [':', ')']).2).isSome = true ∧
    ((null.TimestampFrom sampleUTC).UnmarshalJSON [':', ')']).1.Valid = true ∧
    ((null.TimestampFrom sampleUTC).UnmarshalJSON [':', ')']).1.Time ≠ zeroGoTime := by
  decide

/-- Claim C2, amended: whenever a Timestamp decode (structured or text,
either family) returns an error, the receiver is left exactly as it was
before the call — never partially populated; in particular a fresh zero
receiver remains in the invalid/zero state. -/
theorem claim_C2_decode_error_receiver_unchanged
    (tn : null.Timestamp) (tz : zero.Timestamp) (data text : List Char) :
    (((tn.UnmarshalJSON data).2).isSome = true → (tn.UnmarshalJSON data).1 = tn) ∧
    (((tn.UnmarshalText text).2).isSome = true → (tn.UnmarshalText text).1 = tn) ∧
    (((tz.UnmarshalJSON data).2).isSome = true → (tz.UnmarshalJSON data).1 = tz) ∧
    (((tz.UnmarshalText text).2).isSome = true → (tz.UnmarshalText text).1 = tz) :=
  ⟨null_unmarshalJSON_error_unchanged tn data,
   null_unmarshalText_error_unchanged tn text,
   zero_unmarshalJSON_error_unchanged tz data,
   zero_unmarshalText_error_unchanged tz text⟩

/-- Witness for the amended claim C2 at a concrete erroring input. -/
theorem claim_C2_witness :
    ((null.TimestampFrom sampleUTC).UnmarshalJSON [':', ')']).1 =
      null.TimestampFrom sampleUTC :=
  (claim_C2_decode_error_receiver_unchanged (null.TimestampFrom sampleUTC)
    (zero.TimestampFrom sampleUTC) [':', ')'] [':', ')']).1 (by decide)

/-- Claim C3, counterexample: structured decode of `null` into a valid,
non-zero null-family receiver succeeds and clears `Valid`, but the stored
time value stays non-zero — the code only assigns `t.Valid = false` and
never resets `t.Time`. -/
theorem claim_C3_counterexample :
    ((null.TimestampFrom sampleUTC).UnmarshalJSON nullBytes).2 = none ∧
    ((null.TimestampFrom sampleUTC).UnmarshalJSON nullBytes).1.Valid = false ∧
    ((null.TimestampFrom sampleUTC).UnmarshalJSON nullBytes).1.Time ≠ zeroGoTime := by
  decide

/-- Claim C3, amended: for every null-family `Timestamp` receiver,
structured decode of the literal `null` token succeeds, sets valid=false,
and leaves the stored time value untouched. -/
theorem claim_C3_null_token_clears_valid_only (t : null.Timestamp) :
    t.UnmarshalJSON nullBytes = ({ t with Valid := false }, none) := rfl

/-- Claim C5: zero-family structured encode of any invalid wrapper yields
the bytes `0`, never the null token; in particular `TimestampFrom` of the
zero time is invalid and encodes to `0`. -/
theorem claim_C5_zero_invalid_encodes_zero_literal (t : zero.Timestamp)
    (h : t.Valid = false) :
    t.MarshalJSON = ['0'] ∧ (zero.TimestampFrom zeroGoTime).Valid = false ∧
    (zero.TimestampFrom zeroGoTime).MarshalJSON = ['0'] := by
  refine ⟨?_, by decide, by decide⟩
  simp [zero.Timestamp.MarshalJSON, h]

/-- Witness for claim C5 at a concrete invalid wrapper. -/
theorem claim_C5_witness : (zero.NewTimestamp sampleUTC false).MarshalJSON = ['0'] :=
  (claim_C5_zero_invalid_encodes_zero_literal (zero.NewTimestamp sampleUTC false) rfl).1

/-- Claim C7: zero-family `Equal` is true exactly when the two
`ValueOrZero` results denote the same instant; in particular a wrapper
holding a non-zero time with valid=false equals a wrapper holding the
zero time with valid=true. -/
theorem claim_C7_zero_equal_iff (a b : zero.Timestamp) :
    (a.Equal b = true ↔ a.ValueOrZero.unixNano = b.ValueOrZero.unixNano) ∧
    (zero.NewTimestamp sampleUTC false).Equal (zero.NewTimestamp zeroGoTime true) = true := by
  constructor
  · simp [zero.Timestamp.Equal, GoTime.Equal]
  · decide

/-- Claim C8: two valid null-family Timestamps carrying the same instant
in different locations are `Equal` but not `ExactEqual`. -/
theorem claim_C8_equal_not_exactEqual :
    ∃ a b : null.Timestamp, a.Valid = true ∧ b.Valid = true ∧
      a.Time.unixNano = b.Time.unixNano ∧ a.Time.loc ≠ b.Time.loc ∧
      a.Equal b = true ∧ a.ExactEqual b = false :=
  ⟨null.TimestampFrom sampleUTC, null.TimestampFrom sampleCET, by decide⟩

/-- Claim C10, counterexample: text decode of the empty input on a valid
receiver whose time is in a non-UTC location succeeds without touching the
receiver, so the decode "succeeds with valid=true" while the stored
location is not UTC. -/
theorem claim_C10_counterexample :
    ((null.NewTimestamp sampleCET true).UnmarshalText []).2 = none ∧
    ((null.NewTimestamp sampleCET true).UnmarshalText []).1.Valid = true ∧
    ((null.NewTimestamp sampleCET true).UnmarshalText []).1.Time.loc ≠ "UTC" := by
  decide

/-- Claim C10, amended: a successful Timestamp decode (structured or text,
either family) either leaves the stored time exactly as it was before the
call (the null/empty/zero-form branches) or stores a time whose location
is UTC — decode never writes a non-UTC location. -/
theorem claim_C10_decode_writes_only_utc
    (tn : null.Timestamp) (tz : zero.Timestamp) (data text : List Char) :
    ((tn.UnmarshalJSON data).2 = none →
      (tn.UnmarshalJSON data).1.Time = tn.Time ∨ (tn.UnmarshalJSON data).1.Time.loc = "UTC") ∧
    ((tn.UnmarshalText text).2 = none →
      (tn.UnmarshalText text).1.Time = tn.Time ∨ (tn.UnmarshalText text).1.Time.loc = "UTC") ∧
    ((tz.UnmarshalJSON data).2 = none →
      (tz.UnmarshalJSON data).1.Time = tz.Time ∨ (tz.UnmarshalJSON data).1.Time.loc = "UTC") ∧
    ((tz.UnmarshalText text).2 = none →
      (tz.UnmarshalText text).1.Time = tz.Time ∨ (tz.UnmarshalText text).1.Time.loc = "UTC") :=
  ⟨null_unmarshalJSON_loc tn data, null_unmarshalText_loc tn text,
   zero_unmarshalJSON_loc tz data, zero_unmarshalText_loc tz text⟩

/-- Witness for the amended claim C10 at a concrete parsed decode. -/
theorem claim_C10_witness :
    ((null.NewTimestamp sampleCET true).UnmarshalJSON ['5']).1.Time =
        (null.NewTimestamp sampleCET true).Time ∨
    ((null.NewTimestamp sampleCET true).UnmarshalJSON ['5']).1.Time.loc = "UTC" :=
  (claim_C10_decode_writes_only_utc (null.NewTimestamp sampleCET true)
    (zero.NewTimestamp sampleCET true) ['5'] ['5']).1 (by decide)

/-- Claim C4: null-family JSON round trip. For every time value
representable in the wire format — a whole number of milliseconds whose
nanosecond count fits in int64 — decoding the encoding of
`TimestampFrom v` succeeds and yields a wrapper `Equal` to
`TimestampFrom v`; when `v` is in UTC (the location the decoder always
produces) the wrapper is even structurally identical. -/
theorem claim_C4_null_roundtrip (t : null.Timestamp) (v : GoTime)
    (h1 : int64MinValue ≤ v.unixNano) (h2 : v.unixNano ≤ int64MaxValue)
    (hms : (1000000 : Int) ∣ v.unixNano) :
    (t.UnmarshalJSON ((null.TimestampFrom v).MarshalJSON)).2 = none ∧
    ((t.UnmarshalJSON ((null.TimestampFrom v).MarshalJSON)).1.Equal
      (null.TimestampFrom v)) = true ∧
    (v.loc = "UTC" →
      (t.UnmarshalJSON ((null.TimestampFrom v).MarshalJSON)).1 = null.TimestampFrom v) := by
  obtain ⟨k, hk⟩ := hms
  have hb : int64MinValue ≤ k ∧ k ≤ int64MaxValue := by
    unfold int64MinValue at h1 ⊢
    unfold int64MaxValue at h2 ⊢
    omega
  have henc : (null.TimestampFrom v).MarshalJSON = intToDecimalChars k := by
    show intToDecimalChars (Int.tdiv (wrap64 v.unixNano) 1000000) = intToDecimalChars k
    rw [wrap64_eq_of_range v.unixNano h1 h2, hk,
      Int.mul_tdiv_cancel_left k (by norm_num)]
  have htime : epochUTC.Add (wrap64 (k * 1000000)) = { unixNano := v.unixNano, loc := "UTC" } := by
    rw [Int.mul_comm, ← hk, wrap64_eq_of_range v.unixNano h1 h2]
    show ({ unixNano := 0 + v.unixNano, loc := "UTC" } : GoTime) = _
    rw [zero_add]
  rw [henc, null_unmarshalJSON_decimal t k hb.1 hb.2, htime]
  refine ⟨rfl, ?_, ?_⟩
  · simp [null.Timestamp.Equal, null.TimestampFrom, null.NewTimestamp, GoTime.Equal]
  · intro hloc
    obtain ⟨vn, vl⟩ := v
    simp only [] at hloc
    show ({ Time := { unixNano := vn, loc := "UTC" }, Valid := true } : null.Timestamp) = _
    rw [hloc]
    rfl

/-- Witness for claim C4 at the tests' sample instant. -/
theorem claim_C4_witness :
    ((null.NewTimestamp zeroGoTime false).UnmarshalJSON
        ((null.TimestampFrom sampleUTC).MarshalJSON)).1 = null.TimestampFrom sampleUTC :=
  (claim_C4_null_roundtrip (null.NewTimestamp zeroGoTime false) sampleUTC
    (by decide) (by decide) (by decide)).2.2 rfl

/-- Claim C9, counterexample: a valid null-family Timestamp half a
millisecond before the Unix epoch encodes as `0` through MarshalJSON
(`UnixNano()/1e6` truncates toward zero) but as `-1` through MarshalText
(`UnixMilli()` floors), so the two encode paths disagree. -/
theorem claim_C9_counterexample :
    (null.NewTimestamp preEpochTime true).Valid = true ∧
    (null.NewTimestamp preEpochTime true).MarshalJSON = ['0'] ∧
    (null.NewTimestamp preEpochTime true).MarshalText = ['-', '1'] ∧
    (null.NewTimestamp preEpochTime true).MarshalJSON ≠
      (null.NewTimestamp preEpochTime true).MarshalText := by
  decide

/-- Claim C9, amended: for every valid null-family Timestamp whose
nanosecond instant fits in int64, the decimal number produced by
MarshalJSON agrees byte for byte with the one produced by MarshalText
whenever the instant is at or after the Unix epoch, or is a whole number
of milliseconds; sub-millisecond pre-epoch instants can disagree. -/
theorem claim_C9_encode_paths_agree (t : null.Timestamp) (hv : t.Valid = true)
    (h1 : int64MinValue ≤ t.Time.unixNano) (h2 : t.Time.unixNano ≤ int64MaxValue)
    (h : 0 ≤ t.Time.unixNano ∨ (1000000 : Int) ∣ t.Time.unixNano) :
    t.MarshalJSON = t.MarshalText := by
  unfold null.Timestamp.MarshalJSON null.Timestamp.MarshalText
  rw [hv]
  show intToDecimalChars (Int.tdiv t.Time.UnixNano 1000000) =
    int64MarshalText (Int64From t.Time.UnixMilli)
  show intToDecimalChars (Int.tdiv t.Time.UnixNano 1000000) =
    intToDecimalChars t.Time.UnixMilli
  unfold GoTime.UnixNano GoTime.UnixMilli
  rw [wrap64_eq_of_range t.Time.unixNano h1 h2]
  have key : Int.fdiv t.Time.unixNano 1000000 = Int.tdiv t.Time.unixNano 1000000 := by
    rcases h with hpos | ⟨k, hk⟩
    · exact Int.fdiv_eq_tdiv hpos (by norm_num)
    · rw [hk, Int.mul_fdiv_cancel_left k (by norm_num),
        Int.mul_tdiv_cancel_left k (by norm_num)]
  have hbound : int64MinValue ≤ Int.tdiv t.Time.unixNano 1000000 ∧
      Int.tdiv t.Time.unixNano 1000000 ≤ int64MaxValue := by
    rcases h with hpos | ⟨k, hk⟩
    · rw [Int.tdiv_eq_ediv hpos (by norm_num)]
      unfold int64MinValue at h1 ⊢
      unfold int64MaxValue at h2 ⊢
      omega
    · rw [hk, Int.mul_tdiv_cancel_left k (by norm_num)]
      rw [hk] at h1 h2
      unfold int64MinValue at h1 ⊢
      unfold int64MaxValue at h2 ⊢
      omega
  rw [key, wrap64_eq_of_range _ hbound.1 hbound.2]

/-- Witness for the amended claim C9 at the tests' sample instant. -/
theorem claim_C9_witness :
    (null.TimestampFrom sampleUTC).MarshalJSON = (null.TimestampFrom sampleUTC).MarshalText :=
  claim_C9_encode_paths_agree (null.TimestampFrom sampleUTC) rfl
    (by decide) (by decide) (Or.inl (by decide))

/-- Claim C6, counterexample: text decode of the empty input on a valid
null-family receiver succeeds but leaves the receiver valid — the
empty/"null" branch returns before touching the receiver, so it does not
force valid=false. -/
theorem claim_C6_counterexample :
    ((null.TimestampFrom sampleUTC).UnmarshalText []).2 = none ∧
    ((null.TimestampFrom sampleUTC).UnmarshalText []).1.Valid = true := by
  decide

/-- Claim C6, amended: for every null-family `Timestamp` receiver, text
decode of the empty input and of the literal `null` succeeds leaving the
receiver entirely unchanged — in particular a fresh (zero-valued)
receiver is left with valid=false, as the claim intends, but a
previously valid receiver stays valid — and any other unparseable text
input returns an error with the receiver unchanged. -/
theorem claim_C6_null_text_decode (t : null.Timestamp) :
    t.UnmarshalText [] = (t, none) ∧
    t.UnmarshalText nullBytes = (t, none) ∧
    ((null.NewTimestamp zeroGoTime false).UnmarshalText []).1.Valid = false ∧
    ((null.NewTimestamp zeroGoTime false).UnmarshalText nullBytes).1.Valid = false ∧
    (∀ s : List Char, s ≠ [] → s ≠ nullBytes → parseIntLit s = none →
      (t.UnmarshalText s).1 = t ∧ ((t.UnmarshalText s).2).isSome = true) := by
  refine ⟨rfl, rfl, rfl, rfl, ?_⟩
  intro s hs1 hs2 hp
  unfold null.Timestamp.UnmarshalText int64UnmarshalText
  rw [if_neg (not_or.mpr ⟨hs1, hs2⟩), hp]
  exact ⟨rfl, rfl⟩

/-- Witness for the amended claim C6 at a concrete unparseable input. -/
theorem claim_C6_witness :
    ((null.TimestampFrom sampleUTC).UnmarshalText ['h', 'i']).1 =
      null.TimestampFrom sampleUTC :=
  ((claim_C6_null_text_decode (null.TimestampFrom sampleUTC)).2.2.2.2 ['h', 'i']
    (by decide) (by decide) (by decide)).1
